import Mathlib

/-!
Shallow embedding of the `EmbyClient` class from
`src/app/api/admin/emby/route.ts` (MoonTVPlus).

Modelling conventions:
* TypeScript strings are `List Char` (`Str`); `"lit".data` injects a literal.
* `string | undefined` fields are `Option Str`; JavaScript truthiness on such
  a value (`undefined` and `""` are falsy) is `truthy`; template-literal
  interpolation of a possibly-undefined value (`undefined` prints as the
  text "undefined") is `interp`; the `a || b` operator on strings is `tsOr`.
* `fetch` is replaced by oracles supplied as arguments: an operation receives
  the responses the network would produce (indexed by call number) and
  returns, besides its result, the mutated session and the trace of network
  calls it performed (`Event`).  A thrown `Error` is `Except.error` carrying
  the message.
* `URLSearchParams` is an association list in insertion order; `set` replaces
  the value of an existing key in place or appends; `toString` joins
  `k=v` pairs with `&` (percent-encoding is not modelled: no claim depends
  on it and every value involved is already URL-safe).
-/

namespace Emby

/-- TypeScript strings are modelled as lists of characters. -/
abbrev Str := List Char

/-- JavaScript truthiness of a `string | undefined` value:
`undefined` and the empty string are falsy. -/
def truthy : Option Str → Bool
  | none => false
  | some s => !s.isEmpty

/-- JavaScript truthiness of a `boolean | undefined` value. -/
def truthyB : Option Bool → Bool
  | none => false
  | some b => b

/-- Template-literal interpolation of a `string | undefined` value:
`undefined` prints as the literal text "undefined". -/
def interp : Option Str → Str
  | some s => s
  | none => "undefined".data

/-- The JavaScript `a || b` operator on `string | undefined` values. -/
def tsOr (a b : Option Str) : Option Str := if truthy a then a else b

/-- The JavaScript `a || d` operator where `d` is a plain string. -/
def strOrD (a : Option Str) (d : Str) : Str := if truthy a then a.getD [] else d

/-- `Response.ok` of the fetch API: status in the range 200-299. -/
def okStatus (n : Nat) : Bool := decide (200 ≤ n) && decide (n < 300)

/-- Decimal rendering of a natural (JS number-to-string in a template). -/
def natChars (n : Nat) : Str := (Nat.repr n).data

/-- Decimal rendering of an integer (JS `Number.prototype.toString`). -/
def intChars (i : Int) : Str := (toString i).data

/-- JS `Boolean.prototype.toString`. -/
def boolChars (b : Bool) : Str := if b then "true".data else "false".data

/-- `URLSearchParams.set`: replace the value of the first entry with the
given key, keeping its position, or append a new entry at the end.
(The lists built by this client never hold duplicate keys, so removal of
further duplicates is omitted.) -/
def setParam : List (Str × Str) → Str → Str → List (Str × Str)
  | [], k, v => [(k, v)]
  | kv :: rest, k, v =>
      if kv.1 = k then (k, v) :: rest else kv :: setParam rest k v

/-- A guarded `URLSearchParams.set`, used for the `if (cond) params.set(..)`
pattern of the source. -/
def setIf (c : Bool) (l : List (Str × Str)) (k v : Str) : List (Str × Str) :=
  if c then setParam l k v else l

/-- `URLSearchParams.toString`: join `k=v` pairs with `&`. -/
def paramsToString : List (Str × Str) → Str
  | [] => []
  | [(k, v)] => k ++ "=".data ++ v
  | (k, v) :: rest => k ++ "=".data ++ v ++ "&".data ++ paramsToString rest

/-- The configuration blob handed to the `EmbyClient` constructor
(interface `EmbyConfig` of the source). -/
structure EmbyConfig where
  ServerURL : Str
  ApiKey : Option Str
  Username : Option Str
  Password : Option Str
  UserId : Option Str
  AuthToken : Option Str
deriving DecidableEq

/-- The mutable fields of an `EmbyClient` instance. -/
structure Session where
  serverUrl : Str
  apiKey : Option Str
  userId : Option Str
  authToken : Option Str
  username : Option Str
  password : Option Str
deriving DecidableEq

/-- The API-root path segment appended by the constructor. -/
def apiRoot : Str := "/emby".data

/-- `config.ServerURL.replace(/\/$/, '')`: strip one trailing slash. -/
def stripTrailingSlash (s : Str) : Str :=
  if s.getLast? = some '/' then s.dropLast else s

/-- The endpoint normalization performed by the `EmbyClient` constructor:
strip one trailing slash, then append "/emby" when the result does not
already end with it. -/
def normalizeEndpoint (s : Str) : Str :=
  let t := stripTrailingSlash s
  if apiRoot.isSuffixOf t then t else t ++ apiRoot

/-- The `EmbyClient` constructor: normalize the endpoint once and copy the
credential fields. -/
def mkEmbyClient (c : EmbyConfig) : Session :=
  { serverUrl := normalizeEndpoint c.ServerURL
    apiKey := c.ApiKey
    userId := c.UserId
    authToken := c.AuthToken
    username := c.Username
    password := c.Password }

/-- One media stream of a media source (interface `EmbyItem.MediaSources[].MediaStreams[]`).
The source field `Type` is a Lean keyword and is spelled `Type'` here. -/
structure MediaStream where
  Type' : Str
  Index : Int
  DisplayTitle : Option Str
  Language : Option Str
  Codec : Option Str
  IsExternal : Option Bool
  DeliveryUrl : Option Str
deriving DecidableEq

/-- One media source of an item. -/
structure MediaSource where
  Id : Str
  MediaStreams : Option (List MediaStream)
deriving DecidableEq

/-- An Emby item; only the fields the verified operations inspect are kept
(the remaining catalog fields are carried opaquely by the endpoints). -/
structure EmbyItem where
  Id : Str
  MediaSources : Option (List MediaSource)
deriving DecidableEq

/-- The parse of a listing response body (interface `EmbyItemsResult`);
`Items` is `none` when the field is absent from the JSON. -/
structure ItemsBody where
  Items : Option (List EmbyItem)
  TotalRecordCount : Option Int
deriving DecidableEq

/-- The value returned by a successful `authenticate` call
(`{ AccessToken, User: { Id } }`). -/
structure AuthData where
  AccessToken : Str
  UserId : Str
deriving DecidableEq

/-- What the network returns for one login (`AuthenticateByName`) request:
the HTTP status, the body as text, and the parsed JSON fields used on
success. -/
structure AuthResponse where
  status : Nat
  bodyText : Str
  accessToken : Str
  userId : Str
deriving DecidableEq

/-- What the network returns for one data-endpoint request: the HTTP status,
the body as text, and the two parsed views of the JSON body the endpoints
use (a listing body and a single item). -/
structure DataResponse where
  status : Nat
  bodyText : Str
  json : ItemsBody
  itemJson : EmbyItem
deriving DecidableEq

/-- What the network returns for the connectivity probe. -/
structure ConnResponse where
  status : Nat
deriving DecidableEq

/-- A thrown `Error`, carrying its message. -/
structure Err where
  msg : Str
deriving DecidableEq

instance {ε α : Type} [DecidableEq ε] [DecidableEq α] : DecidableEq (Except ε α) :=
  fun x y =>
    match x, y with
    | .ok a, .ok b =>
        if h : a = b then isTrue (by rw [h]) else isFalse (fun hc => by cases hc; exact h rfl)
    | .error a, .error b =>
        if h : a = b then isTrue (by rw [h]) else isFalse (fun hc => by cases hc; exact h rfl)
    | .ok _, .error _ => isFalse (fun hc => by cases hc)
    | .error _, .ok _ => isFalse (fun hc => by cases hc)

/-- One network call made by an operation: a login POST or a data GET
(carrying the URL that was fetched). -/
inductive Event where
  | login (u p : Str)
  | data (url : Str)
deriving DecidableEq

/-- Whether an event is a login call. -/
def isLoginEv : Event → Bool
  | .login _ _ => true
  | .data _ => false

/-- Whether an event is a data-endpoint call. -/
def isDataEv : Event → Bool
  | .login _ _ => false
  | .data _ => true

/-- Number of login calls in a trace. -/
def numLogins (tr : List Event) : Nat := (tr.filter isLoginEv).length

/-- Number of data-endpoint calls in a trace. -/
def numData (tr : List Event) : Nat := (tr.filter isDataEv).length

/-- Outcome of running one operation: the session after the run, the trace
of network calls made, and the returned value or thrown error. -/
structure RunResult (α : Type) where
  session : Session
  trace : List Event
  result : Except Err α
deriving DecidableEq

/-- Error message of a rejected login (`Emby 认证失败 (status): body`). -/
def authFailMsg (status : Nat) (body : Str) : Str :=
  "Emby 认证失败 (".data ++ natChars status ++ "): ".data ++ body

/-- The missing-user-id configuration error thrown by every user-scoped
data operation. -/
def userIdErrMsg : Str := "未配置 Emby 用户 ID，请在管理面板重新保存 Emby 配置".data

/-- Error message of a failed `getItems` call, embedding status and body. -/
def itemsFailMsg (status : Nat) (body : Str) : Str :=
  "获取 Emby 媒体列表失败 (".data ++ natChars status ++ "): ".data ++ body

/-- The fixed error message of a failed `getItem` call. -/
def itemDetailFailMsg : Str := "获取 Emby 媒体详情失败".data

/-- The fixed error message of a failed `getSeasons` call. -/
def seasonsFailMsg : Str := "获取 Emby 季列表失败".data

/-- The fixed error message of a failed `getEpisodes` call. -/
def episodesFailMsg : Str := "获取 Emby 集列表失败".data

/-- `EmbyClient.authenticate`: POST the credentials; on a non-success status
throw an error embedding status and body text without touching the session;
on success store the parsed token and user id into the session and return
them.  The single login event is always recorded (the request is sent before
the status is inspected). -/
def authenticate (s : Session) (u p : Str) (r : AuthResponse) : RunResult AuthData :=
  if okStatus r.status then
    ⟨{ s with authToken := some r.accessToken, userId := some r.userId },
      [.login u p], .ok ⟨r.accessToken, r.userId⟩⟩
  else
    ⟨s, [.login u p], .error ⟨authFailMsg r.status r.bodyText⟩⟩

/-- `EmbyClient.ensureAuthenticated`: no-op when `apiKey` is truthy, no-op
when `authToken` is truthy, login when username and password are truthy
(storing the fresh token and user id), and otherwise fall through without
doing anything. -/
def ensureAuthenticated (s : Session) (r : AuthResponse) : RunResult Unit :=
  if truthy s.apiKey then ⟨s, [], .ok ()⟩
  else if truthy s.authToken then ⟨s, [], .ok ()⟩
  else if truthy s.username && truthy s.password then
    let a := authenticate s (s.username.getD []) (s.password.getD []) r
    match a.result with
    | .error e => ⟨a.session, a.trace, .error e⟩
    | .ok ad =>
        ⟨{ a.session with authToken := some ad.AccessToken, userId := some ad.UserId },
          a.trace, .ok ()⟩
  else ⟨s, [], .ok ()⟩

/-- The filter parameters of `getItems` (interface `GetItemsParams`). -/
structure GetItemsParams where
  ParentId : Option Str
  IncludeItemTypes : Option Str
  Recursive : Option Bool
  Fields : Option Str
  SortBy : Option Str
  SortOrder : Option Str
  StartIndex : Option Int
  Limit : Option Int
  searchTerm : Option Str
deriving DecidableEq

/-- The search-parameter list `getItems` builds from its filter argument,
in the source's insertion order (string fields are added when truthy,
`Recursive`, `StartIndex` and `Limit` when not `undefined`). -/
def buildItemsParams (p : GetItemsParams) : List (Str × Str) :=
  let sp0 : List (Str × Str) := []
  let sp1 := setIf (truthy p.ParentId) sp0 ("ParentId".data) (p.ParentId.getD [])
  let sp2 := setIf (truthy p.IncludeItemTypes) sp1 ("IncludeItemTypes".data) (p.IncludeItemTypes.getD [])
  let sp3 := setIf p.Recursive.isSome sp2 ("Recursive".data) (boolChars (p.Recursive.getD false))
  let sp4 := setIf (truthy p.Fields) sp3 ("Fields".data) (p.Fields.getD [])
  let sp5 := setIf (truthy p.SortBy) sp4 ("SortBy".data) (p.SortBy.getD [])
  let sp6 := setIf (truthy p.SortOrder) sp5 ("SortOrder".data) (p.SortOrder.getD [])
  let sp7 := setIf p.StartIndex.isSome sp6 ("StartIndex".data) (intChars (p.StartIndex.getD 0))
  let sp8 := setIf p.Limit.isSome sp7 ("Limit".data) (intChars (p.Limit.getD 0))
  setIf (truthy p.searchTerm) sp8 ("searchTerm".data) (p.searchTerm.getD [])

/-- `EmbyClient.getItems`: ensure authentication, require a user id, issue
the listing request with the current credential, re-authenticate and retry
exactly once on a 401 when username and password are set and no apiKey is,
and throw an error embedding status and body on a final failure.
`authO`/`dataO` give the network's response to the n-th login / data call. -/
def getItems (s : Session) (p : GetItemsParams)
    (authO : Nat → AuthResponse) (dataO : Nat → DataResponse) : RunResult ItemsBody :=
  let e := ensureAuthenticated s (authO 0)
  match e.result with
  | .error er => ⟨e.session, e.trace, .error er⟩
  | .ok _ =>
    let s1 := e.session
    if !truthy s1.userId then ⟨s1, e.trace, .error ⟨userIdErrMsg⟩⟩
    else
      let token := tsOr s1.apiKey s1.authToken
      let sp1 := setIf (truthy token) (buildItemsParams p) ("X-Emby-Token".data) (token.getD [])
      let url1 := s1.serverUrl ++ "/Users/".data ++ interp s1.userId ++ "/Items?".data
        ++ paramsToString sp1
      let d1 := dataO 0
      let tr1 := e.trace ++ [.data url1]
      if d1.status == 401 && truthy s1.username && truthy s1.password && !truthy s1.apiKey then
        let a := authenticate s1 (s1.username.getD []) (s1.password.getD []) (authO (numLogins tr1))
        match a.result with
        | .error er => ⟨a.session, tr1 ++ a.trace, .error er⟩
        | .ok ad =>
          let s2 := { a.session with authToken := some ad.AccessToken, userId := some ad.UserId }
          let sp2 := setParam sp1 ("X-Emby-Token".data) ad.AccessToken
          let url2 := s2.serverUrl ++ "/Users/".data ++ interp s2.userId ++ "/Items?".data
            ++ paramsToString sp2
          let d2 := dataO 1
          ⟨s2, tr1 ++ a.trace ++ [.data url2],
            if okStatus d2.status then .ok d2.json
            else .error ⟨itemsFailMsg d2.status d2.bodyText⟩⟩
      else
        ⟨s1, tr1,
          if okStatus d1.status then .ok d1.json
          else .error ⟨itemsFailMsg d1.status d1.bodyText⟩⟩

/-- `EmbyClient.getItem`: same protocol as `getItems` on the single-item
endpoint; the credential rides in the `api_key` query parameter, and a final
failure throws the fixed message `获取 Emby 媒体详情失败` (no status, no body). -/
def getItem (s : Session) (itemId : Str)
    (authO : Nat → AuthResponse) (dataO : Nat → DataResponse) : RunResult EmbyItem :=
  let e := ensureAuthenticated s (authO 0)
  match e.result with
  | .error er => ⟨e.session, e.trace, .error er⟩
  | .ok _ =>
    let s1 := e.session
    if !truthy s1.userId then ⟨s1, e.trace, .error ⟨userIdErrMsg⟩⟩
    else
      let token := tsOr s1.apiKey s1.authToken
      let url1 := s1.serverUrl ++ "/Users/".data ++ interp s1.userId ++ "/Items/".data
        ++ itemId ++ "?Fields=MediaSources".data
        ++ (if truthy token then "&api_key=".data ++ token.getD [] else [])
      let d1 := dataO 0
      let tr1 := e.trace ++ [.data url1]
      if d1.status == 401 && truthy s1.username && truthy s1.password && !truthy s1.apiKey then
        let a := authenticate s1 (s1.username.getD []) (s1.password.getD []) (authO (numLogins tr1))
        match a.result with
        | .error er => ⟨a.session, tr1 ++ a.trace, .error er⟩
        | .ok ad =>
          let s2 := { a.session with authToken := some ad.AccessToken, userId := some ad.UserId }
          let url2 := s2.serverUrl ++ "/Users/".data ++ interp s2.userId ++ "/Items/".data
            ++ itemId ++ "?Fields=MediaSources".data
            ++ (if truthy s2.authToken then "&api_key=".data ++ s2.authToken.getD [] else [])
          let d2 := dataO 1
          ⟨s2, tr1 ++ a.trace ++ [.data url2],
            if okStatus d2.status then .ok d2.itemJson
            else .error ⟨itemDetailFailMsg⟩⟩
      else
        ⟨s1, tr1,
          if okStatus d1.status then .ok d1.itemJson
          else .error ⟨itemDetailFailMsg⟩⟩

/-- `EmbyClient.getSeasons`: same protocol on the seasons endpoint; a
missing `Items` field in a successful body yields `[]`; a final failure
throws the fixed message `获取 Emby 季列表失败`. -/
def getSeasons (s : Session) (seriesId : Str)
    (authO : Nat → AuthResponse) (dataO : Nat → DataResponse) : RunResult (List EmbyItem) :=
  let e := ensureAuthenticated s (authO 0)
  match e.result with
  | .error er => ⟨e.session, e.trace, .error er⟩
  | .ok _ =>
    let s1 := e.session
    if !truthy s1.userId then ⟨s1, e.trace, .error ⟨userIdErrMsg⟩⟩
    else
      let token := tsOr s1.apiKey s1.authToken
      let url1 := s1.serverUrl ++ "/Shows/".data ++ seriesId ++ "/Seasons?userId=".data
        ++ interp s1.userId
        ++ (if truthy token then "&api_key=".data ++ token.getD [] else [])
      let d1 := dataO 0
      let tr1 := e.trace ++ [.data url1]
      if d1.status == 401 && truthy s1.username && truthy s1.password && !truthy s1.apiKey then
        let a := authenticate s1 (s1.username.getD []) (s1.password.getD []) (authO (numLogins tr1))
        match a.result with
        | .error er => ⟨a.session, tr1 ++ a.trace, .error er⟩
        | .ok ad =>
          let s2 := { a.session with authToken := some ad.AccessToken, userId := some ad.UserId }
          let url2 := s2.serverUrl ++ "/Shows/".data ++ seriesId ++ "/Seasons?userId=".data
            ++ interp s2.userId
            ++ (if truthy s2.authToken then "&api_key=".data ++ s2.authToken.getD [] else [])
          let d2 := dataO 1
          ⟨s2, tr1 ++ a.trace ++ [.data url2],
            if okStatus d2.status then .ok ((d2.json.Items).getD [])
            else .error ⟨seasonsFailMsg⟩⟩
      else
        ⟨s1, tr1,
          if okStatus d1.status then .ok ((d1.json.Items).getD [])
          else .error ⟨seasonsFailMsg⟩⟩

/-- `EmbyClient.getEpisodes`: same protocol on the episodes endpoint, with
its parameters built through `URLSearchParams`; a missing `Items` field in a
successful body yields `[]`; a final failure throws the fixed message
`获取 Emby 集列表失败`. -/
def getEpisodes (s : Session) (seriesId : Str) (seasonId : Option Str)
    (authO : Nat → AuthResponse) (dataO : Nat → DataResponse) : RunResult (List EmbyItem) :=
  let e := ensureAuthenticated s (authO 0)
  match e.result with
  | .error er => ⟨e.session, e.trace, .error er⟩
  | .ok _ =>
    let s1 := e.session
    if !truthy s1.userId then ⟨s1, e.trace, .error ⟨userIdErrMsg⟩⟩
    else
      let token := tsOr s1.apiKey s1.authToken
      let base1 : List (Str × Str) :=
        [("userId".data, interp s1.userId), ("Fields".data, "MediaSources".data)]
      let spA := setIf (truthy seasonId) base1 ("seasonId".data) (seasonId.getD [])
      let spB := setIf (truthy token) spA ("api_key".data) (token.getD [])
      let url1 := s1.serverUrl ++ "/Shows/".data ++ seriesId ++ "/Episodes?".data
        ++ paramsToString spB
      let d1 := dataO 0
      let tr1 := e.trace ++ [.data url1]
      if d1.status == 401 && truthy s1.username && truthy s1.password && !truthy s1.apiKey then
        let a := authenticate s1 (s1.username.getD []) (s1.password.getD []) (authO (numLogins tr1))
        match a.result with
        | .error er => ⟨a.session, tr1 ++ a.trace, .error er⟩
        | .ok ad =>
          let s2 := { a.session with authToken := some ad.AccessToken, userId := some ad.UserId }
          let base2 : List (Str × Str) :=
            [("userId".data, interp s2.userId), ("Fields".data, "MediaSources".data)]
          let spC := setIf (truthy seasonId) base2 ("seasonId".data) (seasonId.getD [])
          let spD := setIf (truthy s2.authToken) spC ("api_key".data) (s2.authToken.getD [])
          let url2 := s2.serverUrl ++ "/Shows/".data ++ seriesId ++ "/Episodes?".data
            ++ paramsToString spD
          let d2 := dataO 1
          ⟨s2, tr1 ++ a.trace ++ [.data url2],
            if okStatus d2.status then .ok ((d2.json.Items).getD [])
            else .error ⟨episodesFailMsg⟩⟩
      else
        ⟨s1, tr1,
          if okStatus d1.status then .ok ((d1.json.Items).getD [])
          else .error ⟨episodesFailMsg⟩⟩

/-- The URL fetched by `checkConnectivity`. -/
def connUrl (s : Session) : Str :=
  let token := tsOr s.apiKey s.authToken
  s.serverUrl ++ "/System/Info/Public".data
    ++ (if truthy token then "?api_key=".data ++ token.getD [] else [])

/-- `EmbyClient.checkConnectivity`: fetch the public status endpoint inside
a try/catch; the transport either yields a response (`Except.ok`) or throws
(`Except.error`); a throw becomes `false`, a response becomes `response.ok`. -/
def checkConnectivity (s : Session) (transport : Str → Except Str ConnResponse) : Bool :=
  match transport (connUrl s) with
  | .ok r => okStatus r.status
  | .error _ => false

/-- The image variants accepted by `getImageUrl`. -/
inductive ImageType where
  | Primary
  | Backdrop
  | Logo
deriving DecidableEq

/-- Path rendering of an image variant. -/
def imageTypeChars : ImageType → Str
  | .Primary => "Primary".data
  | .Backdrop => "Backdrop".data
  | .Logo => "Logo".data

/-- `EmbyClient.getImageUrl`: pure URL builder; `maxWidth` is added when
truthy (zero is falsy), the credential when available, and the `?` only
when the query string is non-empty. -/
def getImageUrl (s : Session) (itemId : Str) (imageType : ImageType)
    (maxWidth : Option Int) : Str :=
  let token := tsOr s.apiKey s.authToken
  let ps0 : List (Str × Str) := []
  let ps1 :=
    match maxWidth with
    | some w => if w = 0 then ps0 else setParam ps0 ("maxWidth".data) (intChars w)
    | none => ps0
  let ps2 := setIf (truthy token) ps1 ("api_key".data) (token.getD [])
  let qs := paramsToString ps2
  s.serverUrl ++ "/Items/".data ++ itemId ++ "/Images/".data ++ imageTypeChars imageType
    ++ (if qs.isEmpty then [] else "?".data ++ qs)

/-- `EmbyClient.getStreamUrl`: pure URL builder; the credential is
interpolated directly into the template, so a missing credential prints as
the text "undefined". -/
def getStreamUrl (s : Session) (itemId : Str) (direct : Bool) : Str :=
  if direct then
    s.serverUrl ++ "/Videos/".data ++ itemId ++ "/stream?Static=true&api_key=".data
      ++ interp (tsOr s.apiKey s.authToken)
  else
    s.serverUrl ++ "/Videos/".data ++ itemId ++ "/master.m3u8?api_key=".data
      ++ interp (tsOr s.apiKey s.authToken)

/-- `EmbyClient.getSubtitles`: one entry per subtitle-typed stream of the
item's first media source; external streams with a delivery URL use it
verbatim after the endpoint, embedded streams use the credentialed
Stream.vtt endpoint; language defaults to "unknown" and the label to
"language (codec)". -/
def getSubtitles (s : Session) (item : EmbyItem) :
    List (Str × Str × Str) :=
  match item.MediaSources with
  | none => []
  | some [] => []
  | some (ms :: _) =>
    match ms.MediaStreams with
    | none => []
    | some streams =>
      let token := tsOr s.apiKey s.authToken
      (streams.filter (fun st => st.Type' == "Subtitle".data)).map (fun st =>
        let language := strOrD st.Language ("unknown".data)
        let label := strOrD st.DisplayTitle
          (language ++ " (".data ++ interp st.Codec ++ ")".data)
        if truthyB st.IsExternal && truthy st.DeliveryUrl then
          (s.serverUrl ++ st.DeliveryUrl.getD [], language, label)
        else
          (s.serverUrl ++ "/Videos/".data ++ item.Id ++ "/".data ++ ms.Id
            ++ "/Subtitles/".data ++ intChars st.Index ++ "/Stream.vtt?api_key=".data
            ++ interp token, language, label))

/-- Sample normalized endpoint for concrete runs. -/
def sampleEndpoint : Str := "http://h/emby".data

/-- Sample session holding username/password and a cached token. -/
def sTok : Session :=
  ⟨sampleEndpoint, none, some ("uid".data), some ("tk".data),
    some ("alice".data), some ("pw".data)⟩

/-- Sample session holding username/password but no cached token. -/
def sNoTok : Session :=
  ⟨sampleEndpoint, none, some ("uid".data), none,
    some ("alice".data), some ("pw".data)⟩

/-- Sample session authenticated by API key. -/
def sApi : Session :=
  ⟨sampleEndpoint, some ("key1".data), some ("uid".data), none,
    some ("alice".data), some ("pw".data)⟩

/-- Sample session with a user id but no credential of any kind. -/
def sBare : Session :=
  ⟨sampleEndpoint, none, some ("uid".data), none, none, none⟩

/-- Sample session with neither a user id nor any credential. -/
def sNoUid : Session :=
  ⟨sampleEndpoint, none, none, none, none, none⟩

/-- Sample login oracle: every login succeeds with a fresh token. -/
def authOK : Nat → AuthResponse := fun _ => ⟨200, [], "tk2".data, "uid2".data⟩

/-- Sample single item used as parsed body in data responses. -/
def sampleItem : EmbyItem := ⟨"i".data, none⟩

/-- Sample data oracle: first call 401, second call 200. -/
def data401then200 : Nat → DataResponse := fun n =>
  if n = 0 then ⟨401, "unauthorized".data, ⟨some [], some 0⟩, sampleItem⟩
  else ⟨200, [], ⟨some [], some 0⟩, sampleItem⟩

/-- Sample data oracle: first call 401, second call 500. -/
def data401then500 : Nat → DataResponse := fun n =>
  if n = 0 then ⟨401, "unauthorized".data, ⟨some [], some 0⟩, sampleItem⟩
  else ⟨500, "boom".data, ⟨some [], some 0⟩, sampleItem⟩

/-- Sample data oracle: success whose body has no `Items` field. -/
def data200noItems : Nat → DataResponse := fun _ =>
  ⟨200, [], ⟨none, some 7⟩, sampleItem⟩

/-- Sample data oracle: every call fails with a 500. -/
def data500 : Nat → DataResponse := fun _ =>
  ⟨500, "boom".data, ⟨none, none⟩, sampleItem⟩

/-- Empty filter parameters. -/
def pEmpty : GetItemsParams := ⟨none, none, none, none, none, none, none, none, none⟩

theorem truthy_some_ne {u : Str} (h : u ≠ []) : truthy (some u) = true := by
  cases u with
  | nil => exact absurd rfl h
  | cons a t => rfl

theorem normalize_suffix (x : Str) :
    apiRoot.isSuffixOf (normalizeEndpoint x) = true := by
  unfold normalizeEndpoint
  by_cases h : apiRoot.isSuffixOf (stripTrailingSlash x) = true
  · simp [h]
  · simp only [h]
    simp only [Bool.false_eq_true, if_false]
    exact List.isSuffixOf_iff_suffix.mpr (List.suffix_append _ _)

theorem strip_of_suffix (u : Str) (h : apiRoot.isSuffixOf u = true) :
    stripTrailingSlash u = u := by
  obtain ⟨w, hw⟩ := List.isSuffixOf_iff_suffix.mp h
  have hl : u.getLast? = some 'y' := by
    rw [← hw, List.getLast?_append_of_ne_nil w (by decide : apiRoot ≠ [])]
    rfl
  unfold stripTrailingSlash
  rw [hl]
  simp

/-- Claim C8: endpoint normalization (done once in the constructor) strips a
trailing slash, appends "/emby" when absent, and is idempotent; the two
sample endpoints both normalize to "http://host:8096/emby". -/
theorem claim8_normalization_idempotent :
    (∀ x : Str, normalizeEndpoint (normalizeEndpoint x) = normalizeEndpoint x)
    ∧ normalizeEndpoint ("http://host:8096/".data) = "http://host:8096/emby".data
    ∧ normalizeEndpoint ("http://host:8096/emby".data) = "http://host:8096/emby".data
    ∧ ∀ c : EmbyConfig, (mkEmbyClient c).serverUrl = normalizeEndpoint c.ServerURL := by
  refine ⟨fun x => ?_, by decide, by decide, fun c => rfl⟩
  have h := normalize_suffix x
  conv_lhs => rw [normalizeEndpoint]
  simp only [strip_of_suffix _ h, h, if_true]

/-- Claim C6: `authenticate` is atomic: on a non-success status it throws an
error carrying the status code and the response body and leaves the session
unchanged; on success it stores the parsed token and user id into the
session and returns them; in both cases exactly one login call happens. -/
theorem claim6_authenticate_atomic (s : Session) (u p : Str) (r : AuthResponse) :
    (okStatus r.status = false →
      authenticate s u p r =
        ⟨s, [.login u p], .error ⟨authFailMsg r.status r.bodyText⟩⟩)
    ∧ (okStatus r.status = true →
      authenticate s u p r =
        ⟨{ s with authToken := some r.accessToken, userId := some r.userId },
          [.login u p], .ok ⟨r.accessToken, r.userId⟩⟩) := by
  constructor <;> intro h <;> simp [authenticate, h]

/-- Witness for C6 at concrete inputs: a 401 login leaves the sample session
untouched and reports status and body; a 200 login stores the new token. -/
theorem claim6_witness :
    (authenticate sBare ("alice".data) ("pw".data) ⟨401, "bad".data, [], []⟩ =
      ⟨sBare, [.login ("alice".data) ("pw".data)], .error ⟨authFailMsg 401 ("bad".data)⟩⟩)
    ∧ (authenticate sBare ("alice".data) ("pw".data) ⟨200, [], "t2".data, "u2".data⟩ =
      ⟨{ sBare with authToken := some ("t2".data), userId := some ("u2".data) },
        [.login ("alice".data) ("pw".data)], .ok ⟨"t2".data, "u2".data⟩⟩) :=
  ⟨(claim6_authenticate_atomic sBare ("alice".data) ("pw".data)
      ⟨401, "bad".data, [], []⟩).1 (by decide),
   (claim6_authenticate_atomic sBare ("alice".data) ("pw".data)
      ⟨200, [], "t2".data, "u2".data⟩).2 (by decide)⟩

/-- Claim C7: `checkConnectivity` never throws (its type is a plain
boolean): it returns `true` exactly when the transport yields a response
with a successful status, and returns `false` whenever the transport
throws. -/
theorem claim7_connectivity_never_throws (s : Session)
    (transport : Str → Except Str ConnResponse) :
    (checkConnectivity s transport = true ↔
      ∃ r, transport (connUrl s) = .ok r ∧ okStatus r.status = true)
    ∧ (∀ e, transport (connUrl s) = .error e → checkConnectivity s transport = false) := by
  cases h : transport (connUrl s) with
  | ok r =>
    constructor
    · rw [show checkConnectivity s transport = okStatus r.status by
        unfold checkConnectivity; rw [h]]
      constructor
      · intro hh
        exact ⟨r, rfl, hh⟩
      · rintro ⟨r', hr', hok⟩
        cases hr'
        exact hok
    · intro e he
      cases he
  | error e =>
    have hc : checkConnectivity s transport = false := by
      unfold checkConnectivity; rw [h]
    constructor
    · rw [hc]
      constructor
      · intro hh
        cases hh
      · rintro ⟨r', hr', _⟩
        cases hr'
    · intro _ _
      exact hc

/-- Witness for C7 at concrete inputs: a throwing transport yields `false`,
a transport answering 200 yields `true`. -/
theorem claim7_witness :
    (checkConnectivity sBare (fun _ => .error ("ECONNREFUSED".data)) = false)
    ∧ (checkConnectivity sBare (fun _ => .ok ⟨200⟩) = true) :=
  ⟨(claim7_connectivity_never_throws sBare (fun _ => .error ("ECONNREFUSED".data))).2
      ("ECONNREFUSED".data) rfl,
   (claim7_connectivity_never_throws sBare (fun _ => .ok ⟨200⟩)).1.mpr
      ⟨⟨200⟩, rfl, by decide⟩⟩

theorem numLogins_nil : numLogins [] = 0 := rfl

theorem numLogins_single_data (url : Str) : numLogins [.data url] = 0 := rfl

/-- Claim C5: with an API key set, `ensureAuthenticated` is a no-op and no
user-scoped operation ever performs a login call, whatever the network
answers (in particular a 401 data response does not trigger
re-authentication, because the retry guard requires the API key to be
absent). -/
theorem claim5_apiKey_never_logs_in (s : Session) (ak : Str)
    (hak : s.apiKey = some ak) (hne : ak ≠ []) :
    (∀ r, ensureAuthenticated s r = ⟨s, [], .ok ()⟩)
    ∧ (∀ p aO dO, numLogins (getItems s p aO dO).trace = 0)
    ∧ (∀ iid aO dO, numLogins (getItem s iid aO dO).trace = 0)
    ∧ (∀ sid aO dO, numLogins (getSeasons s sid aO dO).trace = 0)
    ∧ (∀ sid so aO dO, numLogins (getEpisodes s sid so aO dO).trace = 0) := by
  have ht : truthy s.apiKey = true := by rw [hak]; exact truthy_some_ne hne
  have hens : ∀ r, ensureAuthenticated s r = ⟨s, [], .ok ()⟩ := by
    intro r
    simp [ensureAuthenticated, ht]
  refine ⟨hens, ?_, ?_, ?_, ?_⟩ <;> intro a b c
  · by_cases hu : truthy s.userId <;>
      simp [getItems, hens, ht, hu, numLogins, isLoginEv]
  · by_cases hu : truthy s.userId <;>
      simp [getItem, hens, ht, hu, numLogins, isLoginEv]
  · by_cases hu : truthy s.userId <;>
      simp [getSeasons, hens, ht, hu, numLogins, isLoginEv]
  · intro d
    by_cases hu : truthy s.userId <;>
      simp [getEpisodes, hens, ht, hu, numLogins, isLoginEv]

/-- Witness for C5: on the concrete API-key session a 401-answering network
still produces a login-free `getItems` trace and `ensureAuthenticated` is a
no-op. -/
theorem claim5_witness :
    (ensureAuthenticated sApi ⟨200, [], "t".data, "u".data⟩ = ⟨sApi, [], .ok ()⟩)
    ∧ numLogins (getItems sApi pEmpty authOK data401then200).trace = 0 :=
  ⟨(claim5_apiKey_never_logs_in sApi ("key1".data) rfl (by decide)).1 _,
   (claim5_apiKey_never_logs_in sApi ("key1".data) rfl (by decide)).2.1
      pEmpty authOK data401then200⟩

theorem suffix_append_left {x t : Str} (h : x <:+ t) (pre : Str) : x <:+ pre ++ t :=
  h.trans (List.suffix_append pre t)

theorem paramsToString_cons (a : Str × Str) (r : List (Str × Str)) (h : r ≠ []) :
    paramsToString (a :: r) =
      a.1 ++ "=".data ++ a.2 ++ "&".data ++ paramsToString r := by
  obtain ⟨k, v⟩ := a
  cases r with
  | nil => exact absurd rfl h
  | cons b u => rfl

theorem paramsToString_last_suffix (l : List (Str × Str)) (k v : Str) :
    (k ++ "=".data ++ v) <:+ paramsToString (l ++ [(k, v)]) := by
  induction l with
  | nil => simp [paramsToString]
  | cons a t ih =>
    rw [List.cons_append, paramsToString_cons a (t ++ [(k, v)]) (by simp)]
    exact suffix_append_left ih _

theorem setParam_not_mem {l : List (Str × Str)} {k : Str}
    (h : k ∉ l.map Prod.fst) (v : Str) : setParam l k v = l ++ [(k, v)] := by
  induction l with
  | nil => rfl
  | cons a t ih =>
    have h1 : a.1 ≠ k := fun hh => h (by simp [hh])
    have h2 : k ∉ t.map Prod.fst := fun hm => h (by simp [hm])
    simp [setParam, h1, ih h2]

theorem setParam_replace_last {l : List (Str × Str)} {k : Str}
    (h : k ∉ l.map Prod.fst) (v v' : Str) :
    setParam (l ++ [(k, v)]) k v' = l ++ [(k, v')] := by
  induction l with
  | nil => simp [setParam]
  | cons a t ih =>
    have h1 : a.1 ≠ k := fun hh => h (by simp [hh])
    have h2 : k ∉ t.map Prod.fst := fun hm => h (by simp [hm])
    simp [setParam, h1, ih h2]

theorem not_mem_keys_setParam {l : List (Str × Str)} {k' k v : Str}
    (h1 : k' ∉ l.map Prod.fst) (h2 : k' ≠ k) :
    k' ∉ (setParam l k v).map Prod.fst := by
  induction l with
  | nil => simp [setParam, h2]
  | cons a t ih =>
    have ha : k' ≠ a.1 := fun hh => h1 (by simp [hh])
    have ht : k' ∉ t.map Prod.fst := fun hm => h1 (by simp [hm])
    by_cases hak : a.1 = k
    · simp [setParam, hak, h2, ht]
    · simp [setParam, hak, ha, ih ht]

theorem not_mem_keys_setIf {c : Bool} {l : List (Str × Str)} {k' k v : Str}
    (h1 : k' ∉ l.map Prod.fst) (h2 : k' ≠ k) :
    k' ∉ (setIf c l k v).map Prod.fst := by
  cases c
  · simpa [setIf] using h1
  · simpa [setIf] using not_mem_keys_setParam h1 h2

theorem xEmbyToken_not_mem (p : GetItemsParams) :
    "X-Emby-Token".data ∉ (buildItemsParams p).map Prod.fst := by
  simp only [buildItemsParams]
  exact not_mem_keys_setIf (not_mem_keys_setIf (not_mem_keys_setIf (not_mem_keys_setIf
    (not_mem_keys_setIf (not_mem_keys_setIf (not_mem_keys_setIf (not_mem_keys_setIf
      (not_mem_keys_setIf (by simp) (by decide)) (by decide)) (by decide)) (by decide))
      (by decide)) (by decide)) (by decide)) (by decide)) (by decide)

theorem apiKey_not_mem_episodesBase (uidv : Str) (so : Option Str) :
    "api_key".data ∉ (setIf (truthy so)
      [("userId".data, uidv), ("Fields".data, "MediaSources".data)]
      ("seasonId".data) (so.getD [])).map Prod.fst := by
  refine not_mem_keys_setIf ?_ (by decide)
  intro h
  simp only [List.map_cons, List.map_nil, List.mem_cons, List.not_mem_nil, or_false] at h
  rcases h with h' | h' <;> exact absurd h' (by decide)

/-- Claim C2 (amended): when `apiKey` and `authToken` are unusable and
username/password are not both usable, `ensureAuthenticated` does NOT fail:
it falls through and returns without any network call; every user-scoped
operation then fails with the missing-user-id message when the user id is
absent, and otherwise issues exactly one data request whose URL carries no
credential: the URL is spelled out for each of the four operations, and the
parameter lists occurring in them never contain the `X-Emby-Token` /
`api_key` keys. -/
theorem claim2_no_credential_falls_through (s : Session)
    (hak : truthy s.apiKey = false) (hat : truthy s.authToken = false)
    (hup : (truthy s.username && truthy s.password) = false) :
    (∀ r, ensureAuthenticated s r = ⟨s, [], .ok ()⟩)
    ∧ (truthy s.userId = false →
        (∀ p aO dO, getItems s p aO dO = ⟨s, [], .error ⟨userIdErrMsg⟩⟩)
        ∧ (∀ iid aO dO, getItem s iid aO dO = ⟨s, [], .error ⟨userIdErrMsg⟩⟩)
        ∧ (∀ sid aO dO, getSeasons s sid aO dO = ⟨s, [], .error ⟨userIdErrMsg⟩⟩)
        ∧ (∀ sid so aO dO, getEpisodes s sid so aO dO = ⟨s, [], .error ⟨userIdErrMsg⟩⟩))
    ∧ (∀ uid, s.userId = some uid → uid ≠ [] →
        (∀ p aO dO, (getItems s p aO dO).trace =
          [.data (s.serverUrl ++ "/Users/".data ++ uid ++ "/Items?".data
              ++ paramsToString (buildItemsParams p))])
        ∧ (∀ iid aO dO, (getItem s iid aO dO).trace =
          [.data (s.serverUrl ++ "/Users/".data ++ uid ++ "/Items/".data ++ iid
              ++ "?Fields=MediaSources".data)])
        ∧ (∀ sid aO dO, (getSeasons s sid aO dO).trace =
          [.data (s.serverUrl ++ "/Shows/".data ++ sid ++ "/Seasons?userId=".data ++ uid)])
        ∧ (∀ sid so aO dO, (getEpisodes s sid so aO dO).trace =
          [.data (s.serverUrl ++ "/Shows/".data ++ sid ++ "/Episodes?".data
              ++ paramsToString (setIf (truthy so)
                  [("userId".data, uid), ("Fields".data, "MediaSources".data)]
                  ("seasonId".data) (so.getD [])))]))
    ∧ (∀ p, "X-Emby-Token".data ∉ (buildItemsParams p).map Prod.fst)
    ∧ (∀ (uidv : Str) (so : Option Str), "api_key".data ∉ (setIf (truthy so)
        [("userId".data, uidv), ("Fields".data, "MediaSources".data)]
        ("seasonId".data) (so.getD [])).map Prod.fst) := by
  have hens : ∀ r, ensureAuthenticated s r = ⟨s, [], .ok ()⟩ := by
    intro r
    simp [ensureAuthenticated, hak, hat, hup]
  have h2 : truthy s.username = false ∨ truthy s.password = false := by
    cases hx : truthy s.username <;> cases hy : truthy s.password <;> simp_all
  refine ⟨hens, fun hu => ⟨fun p aO dO => ?_, fun iid aO dO => ?_, fun sid aO dO => ?_,
      fun sid so aO dO => ?_⟩,
    fun uid hui huine => ?_, fun p => xEmbyToken_not_mem p,
    fun uidv so => apiKey_not_mem_episodesBase uidv so⟩
  · simp [getItems, hens, hu]
  · simp [getItem, hens, hu]
  · simp [getSeasons, hens, hu]
  · simp [getEpisodes, hens, hu]
  · have htu : truthy s.userId = true := by rw [hui]; exact truthy_some_ne huine
    have hsui : truthy (some uid) = true := truthy_some_ne huine
    refine ⟨fun p aO dO => ?_, fun iid aO dO => ?_, fun sid aO dO => ?_,
      fun sid so aO dO => ?_⟩ <;>
      rcases h2 with h2 | h2
    · simp [getItems, hens, htu, hsui, hui, interp, tsOr, hak, hat, h2, setIf]
    · simp [getItems, hens, htu, hsui, hui, interp, tsOr, hak, hat, h2, setIf]
    · simp [getItem, hens, htu, hsui, hui, interp, tsOr, hak, hat, h2, setIf]
    · simp [getItem, hens, htu, hsui, hui, interp, tsOr, hak, hat, h2, setIf]
    · simp [getSeasons, hens, htu, hsui, hui, interp, tsOr, hak, hat, h2, setIf]
    · simp [getSeasons, hens, htu, hsui, hui, interp, tsOr, hak, hat, h2, setIf]
    · simp [getEpisodes, hens, htu, hsui, hui, interp, tsOr, hak, hat, h2, setIf]
    · simp [getEpisodes, hens, htu, hsui, hui, interp, tsOr, hak, hat, h2, setIf]

/-- Witness for C2 (amended) at concrete inputs: the credential-less sample
session passes `ensureAuthenticated` untouched; `getItems` and `getSeasons`
issue exactly one credential-free data call; and the same session without a
user id makes `getItem` fail with the missing-user-id error and no network
call. -/
theorem claim2_witness :
    (ensureAuthenticated sBare ⟨500, [], [], []⟩ = ⟨sBare, [], .ok ()⟩)
    ∧ ((getItems sBare pEmpty authOK data200noItems).trace =
        [.data (sBare.serverUrl ++ "/Users/".data ++ "uid".data ++ "/Items?".data
            ++ paramsToString (buildItemsParams pEmpty))])
    ∧ ((getSeasons sBare ("ser1".data) authOK data200noItems).trace =
        [.data (sBare.serverUrl ++ "/Shows/".data ++ "ser1".data
            ++ "/Seasons?userId=".data ++ "uid".data)])
    ∧ (getItem sNoUid ("i1".data) authOK data200noItems =
        ⟨sNoUid, [], .error ⟨userIdErrMsg⟩⟩) :=
  ⟨(claim2_no_credential_falls_through sBare rfl rfl rfl).1 _,
   ((claim2_no_credential_falls_through sBare rfl rfl rfl).2.2.1
      ("uid".data) rfl (by decide)).1 pEmpty authOK data200noItems,
   ((claim2_no_credential_falls_through sBare rfl rfl rfl).2.2.1
      ("uid".data) rfl (by decide)).2.2.1 ("ser1".data) authOK data200noItems,
   ((claim2_no_credential_falls_through sNoUid rfl rfl rfl).2.1 rfl).2.1
      ("i1".data) authOK data200noItems⟩

/-- Counterexample for C2: on a session with a user id and no credential at
all, `ensureAuthenticated` succeeds (no "no usable credential" error
exists in the code) and `getItems` issues one data-endpoint network call
instead of failing immediately. -/
theorem claim2_counterexample :
    (ensureAuthenticated sBare ⟨401, [], [], []⟩ = ⟨sBare, [], .ok ()⟩)
    ∧ numData (getItems sBare pEmpty authOK data200noItems).trace = 1
    ∧ (getItems sBare pEmpty authOK data200noItems).result = .ok ⟨none, some 7⟩ := by
  refine ⟨rfl, rfl, rfl⟩

/-- Claim C3 (amended): on a successful response whose body lacks `Items`,
`getSeasons` and `getEpisodes` return the empty collection, but `getItems`
returns the parsed body unchanged — the absent `Items` field stays absent. -/
theorem claim3_missing_items_field (s : Session) (ak uid : Str)
    (hak : s.apiKey = some ak) (hakne : ak ≠ [])
    (hui : s.userId = some uid) (huine : uid ≠ [])
    (aO : Nat → AuthResponse) (dO : Nat → DataResponse)
    (hok : okStatus (dO 0).status = true) (hni : (dO 0).json.Items = none) :
    (∀ sid, (getSeasons s sid aO dO).result = .ok [])
    ∧ (∀ sid so, (getEpisodes s sid so aO dO).result = .ok [])
    ∧ (∀ p, (getItems s p aO dO).result = .ok (dO 0).json) := by
  have ht : truthy s.apiKey = true := by rw [hak]; exact truthy_some_ne hakne
  have hu : truthy s.userId = true := by rw [hui]; exact truthy_some_ne huine
  have hens : ∀ r, ensureAuthenticated s r = ⟨s, [], .ok ()⟩ := by
    intro r
    simp [ensureAuthenticated, ht]
  refine ⟨fun sid => ?_, fun sid so => ?_, fun p => ?_⟩
  · simp [getSeasons, hens, ht, hu, hok, hni]
  · simp [getEpisodes, hens, ht, hu, hok, hni]
  · simp [getItems, hens, ht, hu, hok]

/-- Witness for C3 at concrete inputs: a 200 body without `Items` makes
`getSeasons` return `[]` while `getItems` returns the `Items`-less body. -/
theorem claim3_witness :
    ((getSeasons sApi ("ser1".data) authOK data200noItems).result = .ok [])
    ∧ ((getItems sApi pEmpty authOK data200noItems).result = .ok (data200noItems 0).json) :=
  ⟨(claim3_missing_items_field sApi ("key1".data) ("uid".data) rfl (by decide) rfl
      (by decide) authOK data200noItems (by decide) rfl).1 ("ser1".data),
   (claim3_missing_items_field sApi ("key1".data) ("uid".data) rfl (by decide) rfl
      (by decide) authOK data200noItems (by decide) rfl).2.2 pEmpty⟩

/-- Counterexample for C3: `getItems` on a successful body lacking `Items`
returns that body with `Items` still absent — not an empty collection. -/
theorem claim3_counterexample :
    ((getItems sApi pEmpty authOK data200noItems).result =
      .ok (⟨none, some 7⟩ : ItemsBody))
    ∧ ((getItems sApi pEmpty authOK data200noItems).result ≠
      .ok (⟨some [], some 7⟩ : ItemsBody)) := by
  refine ⟨rfl, by decide⟩

/-- Claim C4 (amended): on a final non-success response, `getItems` fails
with a message embedding the HTTP status and the body text after its label,
but `getItem`, `getSeasons` and `getEpisodes` fail with fixed
operation-specific labels that carry neither status nor body. -/
theorem claim4_failure_messages (s : Session) (ak uid : Str)
    (hak : s.apiKey = some ak) (hakne : ak ≠ [])
    (hui : s.userId = some uid) (huine : uid ≠ [])
    (aO : Nat → AuthResponse) (dO : Nat → DataResponse)
    (hnok : okStatus (dO 0).status = false) :
    (∀ p, (getItems s p aO dO).result =
      .error ⟨itemsFailMsg (dO 0).status (dO 0).bodyText⟩)
    ∧ (∀ iid, (getItem s iid aO dO).result = .error ⟨itemDetailFailMsg⟩)
    ∧ (∀ sid, (getSeasons s sid aO dO).result = .error ⟨seasonsFailMsg⟩)
    ∧ (∀ sid so, (getEpisodes s sid so aO dO).result = .error ⟨episodesFailMsg⟩) := by
  have ht : truthy s.apiKey = true := by rw [hak]; exact truthy_some_ne hakne
  have hu : truthy s.userId = true := by rw [hui]; exact truthy_some_ne huine
  have hens : ∀ r, ensureAuthenticated s r = ⟨s, [], .ok ()⟩ := by
    intro r
    simp [ensureAuthenticated, ht]
  refine ⟨fun p => ?_, fun iid => ?_, fun sid => ?_, fun sid so => ?_⟩
  · simp [getItems, hens, ht, hu, hnok]
  · simp [getItem, hens, ht, hu, hnok]
  · simp [getSeasons, hens, ht, hu, hnok]
  · simp [getEpisodes, hens, ht, hu, hnok]

/-- Witness for C4 at concrete inputs: a 500/"boom" response makes
`getItems` report `... (500): boom` and `getSeasons` report only its fixed
label. -/
theorem claim4_witness :
    ((getItems sApi pEmpty authOK data500).result =
      .error ⟨itemsFailMsg 500 ("boom".data)⟩)
    ∧ ((getSeasons sApi ("ser1".data) authOK data500).result =
      .error ⟨seasonsFailMsg⟩) :=
  ⟨(claim4_failure_messages sApi ("key1".data) ("uid".data) rfl (by decide) rfl
      (by decide) authOK data500 (by decide)).1 pEmpty,
   (claim4_failure_messages sApi ("key1".data) ("uid".data) rfl (by decide) rfl
      (by decide) authOK data500 (by decide)).2.2.1 ("ser1".data)⟩

/-- Counterexample for C4: `getItem` on a 500/"boom" final response throws
the fixed message `获取 Emby 媒体详情失败`, which contains neither the status
code nor the body text. -/
theorem claim4_counterexample :
    ((getItem sApi ("i1".data) authOK data500).result = .error ⟨itemDetailFailMsg⟩)
    ∧ ¬ ("500".data <:+: itemDetailFailMsg)
    ∧ ¬ ("boom".data <:+: itemDetailFailMsg) := by
  refine ⟨rfl, by decide, by decide⟩

/-- Claim C10: with neither `apiKey` nor `authToken` set, both stream-URL
variants interpolate the missing credential as the literal text
"undefined" after `api_key=`, while `getImageUrl` simply omits the
`api_key` parameter (no query at all without `maxWidth`, and only
`maxWidth` with one). -/
theorem claim10_stream_undefined_image_omits (s : Session)
    (hak : s.apiKey = none) (hat : s.authToken = none) :
    (∀ iid, getStreamUrl s iid true =
      s.serverUrl ++ "/Videos/".data ++ iid ++ "/stream?Static=true&api_key=".data
        ++ "undefined".data)
    ∧ (∀ iid, getStreamUrl s iid false =
      s.serverUrl ++ "/Videos/".data ++ iid ++ "/master.m3u8?api_key=".data
        ++ "undefined".data)
    ∧ (∀ iid it, getImageUrl s iid it none =
      s.serverUrl ++ "/Items/".data ++ iid ++ "/Images/".data ++ imageTypeChars it)
    ∧ (∀ iid it (w : Int), w ≠ 0 → getImageUrl s iid it (some w) =
      s.serverUrl ++ "/Items/".data ++ iid ++ "/Images/".data ++ imageTypeChars it
        ++ "?".data ++ ("maxWidth".data ++ "=".data ++ intChars w)) := by
  refine ⟨fun iid => ?_, fun iid => ?_, fun iid it => ?_, fun iid it w hw => ?_⟩
  · simp [getStreamUrl, tsOr, hak, hat, truthy, interp]
  · simp [getStreamUrl, tsOr, hak, hat, truthy, interp]
  · simp [getImageUrl, tsOr, hak, hat, truthy, setIf, paramsToString]
  · simp [getImageUrl, tsOr, hak, hat, truthy, setIf, setParam, paramsToString, hw]

/-- Witness for C10 at concrete inputs on a credential-less session. -/
theorem claim10_witness :
    (getStreamUrl ⟨sampleEndpoint, none, some ("uid".data), none, none, none⟩
        ("i1".data) true =
      sampleEndpoint ++ "/Videos/".data ++ "i1".data
        ++ "/stream?Static=true&api_key=".data ++ "undefined".data)
    ∧ (getImageUrl ⟨sampleEndpoint, none, some ("uid".data), none, none, none⟩
        ("i1".data) .Primary none =
      sampleEndpoint ++ "/Items/".data ++ "i1".data ++ "/Images/".data
        ++ imageTypeChars .Primary) :=
  ⟨(claim10_stream_undefined_image_omits _ rfl rfl).1 ("i1".data),
   (claim10_stream_undefined_image_omits _ rfl rfl).2.2.1 ("i1".data) .Primary⟩

/-- Claim C9: `getSubtitles` yields one entry per subtitle-typed stream of
the first media source; an external stream with delivery URL "/sub1.vtt"
maps to `{endpoint}/sub1.vtt` with no credential, an embedded stream with
index 2 maps to the credentialed Stream.vtt endpoint, the language defaults
to "unknown" when absent, and the label is the display title when present
or "language (codec)" otherwise. -/
theorem claim9_subtitles (s : Session) (tok : Str)
    (htok : tsOr s.apiKey s.authToken = some tok) :
    (∀ (iid msid : Str) (streams : List MediaStream) (rest : List MediaSource),
      (getSubtitles s ⟨iid, some (⟨msid, some streams⟩ :: rest)⟩).length =
        (streams.filter (fun st => st.Type' == "Subtitle".data)).length)
    ∧ (∀ (iid msid c dt lang : Str) (i : Int) (cc : Option Str),
        dt ≠ [] → lang ≠ [] →
        getSubtitles s ⟨iid, some [⟨msid, some
          [⟨"Subtitle".data, i, none, none, some c, some true, some ("/sub1.vtt".data)⟩,
           ⟨"Subtitle".data, 2, some dt, some lang, cc, none, none⟩]⟩]⟩ =
          [(s.serverUrl ++ "/sub1.vtt".data, "unknown".data,
              "unknown".data ++ " (".data ++ c ++ ")".data),
           (s.serverUrl ++ "/Videos/".data ++ iid ++ "/".data ++ msid
              ++ "/Subtitles/".data ++ "2".data ++ "/Stream.vtt?api_key=".data ++ tok,
            lang, dt)]) := by
  constructor
  · intro iid msid streams rest
    simp [getSubtitles]
  · intro iid msid c dt lang i cc hdt hlang
    have h1 : truthy (some dt) = true := truthy_some_ne hdt
    have h2 : truthy (some lang) = true := truthy_some_ne hlang
    have h3 : truthy (some ("/sub1.vtt".data)) = true := by decide
    have h4 : intChars 2 = "2".data := by decide
    simp [getSubtitles, htok, strOrD, truthyB, interp, h1, h2, h3, h4]
    simp [truthy]

/-- Witness for C9 at concrete inputs: one external and one embedded
subtitle stream on the API-key session. -/
theorem claim9_witness :
    (getSubtitles sApi ⟨"i1".data, some [⟨"ms1".data, some
        [⟨"Subtitle".data, 5, none, none, some ("srt".data), some true,
            some ("/sub1.vtt".data)⟩,
         ⟨"Subtitle".data, 2, some ("Eng CC".data), some ("eng".data), none,
            none, none⟩]⟩]⟩ =
      [(sApi.serverUrl ++ "/sub1.vtt".data, "unknown".data,
          "unknown".data ++ " (".data ++ "srt".data ++ ")".data),
       (sApi.serverUrl ++ "/Videos/".data ++ "i1".data ++ "/".data ++ "ms1".data
          ++ "/Subtitles/".data ++ "2".data ++ "/Stream.vtt?api_key=".data
          ++ "key1".data, "eng".data, "Eng CC".data)])
    ∧ (getSubtitles sApi ⟨"i1".data, some [⟨"ms1".data, some
        [⟨"Subtitle".data, 5, none, none, some ("srt".data), some true,
            some ("/sub1.vtt".data)⟩,
         ⟨"Audio".data, 1, none, none, none, none, none⟩]⟩]⟩).length = 1 :=
  ⟨(claim9_subtitles sApi ("key1".data) rfl).2 ("i1".data) ("ms1".data)
      ("srt".data) ("Eng CC".data) ("eng".data) 2 none (by decide) (by decide),
   by
    have h := (claim9_subtitles sApi ("key1".data) rfl).1 ("i1".data) ("ms1".data)
      [⟨"Subtitle".data, 5, none, none, some ("srt".data), some true,
          some ("/sub1.vtt".data)⟩,
       ⟨"Audio".data, 1, none, none, none, none, none⟩] []
    rw [h]
    decide⟩

theorem claim1_items_aux (s : Session) (p : GetItemsParams)
    (u pw tok uid : Str) (aO : Nat → AuthResponse) (dO : Nat → DataResponse)
    (hu : s.username = some u) (hune : u ≠ [])
    (hp : s.password = some pw) (hpne : pw ≠ [])
    (hak : s.apiKey = none)
    (hat : s.authToken = some tok) (htne : tok ≠ [])
    (hui : s.userId = some uid) (huine : uid ≠ [])
    (h401 : (dO 0).status = 401)
    (hlog : okStatus (aO 0).status = true) :
    (∃ url1 url2,
      (getItems s p aO dO).trace = [.data url1, .login u pw, .data url2]
      ∧ ("X-Emby-Token=".data ++ (aO 0).accessToken) <:+ url2)
    ∧ (okStatus (dO 1).status = false →
        (getItems s p aO dO).result =
          .error ⟨itemsFailMsg (dO 1).status (dO 1).bodyText⟩)
    ∧ (okStatus (dO 1).status = true →
        (getItems s p aO dO).result = .ok (dO 1).json) := by
  have htu : truthy s.username = true := by rw [hu]; exact truthy_some_ne hune
  have htp : truthy s.password = true := by rw [hp]; exact truthy_some_ne hpne
  have hta : truthy s.authToken = true := by rw [hat]; exact truthy_some_ne htne
  have htui : truthy s.userId = true := by rw [hui]; exact truthy_some_ne huine
  have hak' : truthy s.apiKey = false := by rw [hak]; rfl
  have htok : truthy (some tok) = true := truthy_some_ne htne
  have hsu : truthy (some u) = true := truthy_some_ne hune
  have hsp : truthy (some pw) = true := truthy_some_ne hpne
  have hsui : truthy (some uid) = true := truthy_some_ne huine
  have hnone : truthy none = false := rfl
  have hens : ensureAuthenticated s (aO 0) = ⟨s, [], .ok ()⟩ := by
    simp [ensureAuthenticated, hak', hta]
  have htr : (getItems s p aO dO).trace =
      [.data (s.serverUrl ++ "/Users/".data ++ uid ++ "/Items?".data
          ++ paramsToString (setParam (buildItemsParams p) ("X-Emby-Token".data) tok)),
       .login u pw,
       .data (s.serverUrl ++ "/Users/".data ++ (aO 0).userId ++ "/Items?".data
          ++ paramsToString (setParam
              (setParam (buildItemsParams p) ("X-Emby-Token".data) tok)
              ("X-Emby-Token".data) (aO 0).accessToken))] := by
    simp [getItems, hens, htui, tsOr, hak, hat, htok, interp, hui, hu, hp, h401,
      htu, htp, hak', hsu, hsp, hsui, hnone, numLogins, isLoginEv, authenticate,
      hlog, setIf]
  have hres : (getItems s p aO dO).result =
      (if okStatus (dO 1).status then .ok (dO 1).json
       else .error ⟨itemsFailMsg (dO 1).status (dO 1).bodyText⟩) := by
    simp [getItems, hens, htui, tsOr, hak, hat, htok, interp, hui, hu, hp, h401,
      htu, htp, hak', hsu, hsp, hsui, hnone, numLogins, isLoginEv, authenticate,
      hlog, setIf]
  refine ⟨⟨_, _, htr, ?_⟩, fun hok => by rw [hres]; simp [hok],
    fun hok => by rw [hres]; simp [hok]⟩
  rw [setParam_not_mem (xEmbyToken_not_mem p),
    setParam_replace_last (xEmbyToken_not_mem p)]
  exact suffix_append_left
    (paramsToString_last_suffix (buildItemsParams p) ("X-Emby-Token".data)
      ((aO 0).accessToken)) _

theorem claim1_item_aux (s : Session) (iid : Str)
    (u pw tok uid : Str) (aO : Nat → AuthResponse) (dO : Nat → DataResponse)
    (hu : s.username = some u) (hune : u ≠ [])
    (hp : s.password = some pw) (hpne : pw ≠ [])
    (hak : s.apiKey = none)
    (hat : s.authToken = some tok) (htne : tok ≠ [])
    (hui : s.userId = some uid) (huine : uid ≠ [])
    (h401 : (dO 0).status = 401)
    (hlog : okStatus (aO 0).status = true)
    (hnt : (aO 0).accessToken ≠ []) :
    (∃ url1 url2,
      (getItem s iid aO dO).trace = [.data url1, .login u pw, .data url2]
      ∧ ("api_key=".data ++ (aO 0).accessToken) <:+ url2)
    ∧ (okStatus (dO 1).status = false →
        (getItem s iid aO dO).result = .error ⟨itemDetailFailMsg⟩)
    ∧ (okStatus (dO 1).status = true →
        (getItem s iid aO dO).result = .ok (dO 1).itemJson) := by
  have htu : truthy s.username = true := by rw [hu]; exact truthy_some_ne hune
  have htp : truthy s.password = true := by rw [hp]; exact truthy_some_ne hpne
  have hta : truthy s.authToken = true := by rw [hat]; exact truthy_some_ne htne
  have htui : truthy s.userId = true := by rw [hui]; exact truthy_some_ne huine
  have hak' : truthy s.apiKey = false := by rw [hak]; rfl
  have htok : truthy (some tok) = true := truthy_some_ne htne
  have hsu : truthy (some u) = true := truthy_some_ne hune
  have hsp : truthy (some pw) = true := truthy_some_ne hpne
  have hsui : truthy (some uid) = true := truthy_some_ne huine
  have hnt' : truthy (some ((aO 0).accessToken)) = true := truthy_some_ne hnt
  have hnone : truthy none = false := rfl
  have hens : ensureAuthenticated s (aO 0) = ⟨s, [], .ok ()⟩ := by
    simp [ensureAuthenticated, hak', hta]
  have htr : (getItem s iid aO dO).trace =
      [.data (s.serverUrl ++ "/Users/".data ++ uid ++ "/Items/".data ++ iid
          ++ "?Fields=MediaSources".data ++ ("&api_key=".data ++ tok)),
       .login u pw,
       .data (s.serverUrl ++ "/Users/".data ++ (aO 0).userId ++ "/Items/".data ++ iid
          ++ "?Fields=MediaSources".data ++ ("&api_key=".data ++ (aO 0).accessToken))] := by
    simp [getItem, hens, htui, tsOr, hak, hat, htok, interp, hui, hu, hp, h401,
      htu, htp, hak', hsu, hsp, hsui, hnt', hnone, numLogins, isLoginEv,
      authenticate, hlog]
  have hres : (getItem s iid aO dO).result =
      (if okStatus (dO 1).status then .ok (dO 1).itemJson
       else .error ⟨itemDetailFailMsg⟩) := by
    simp [getItem, hens, htui, tsOr, hak, hat, htok, interp, hui, hu, hp, h401,
      htu, htp, hak', hsu, hsp, hsui, hnt', hnone, numLogins, isLoginEv,
      authenticate, hlog]
  refine ⟨⟨_, _, htr, ?_⟩, fun hok => by rw [hres]; simp [hok],
    fun hok => by rw [hres]; simp [hok]⟩
  exact suffix_append_left ⟨['&'], rfl⟩ _

theorem claim1_seasons_aux (s : Session) (sid : Str)
    (u pw tok uid : Str) (aO : Nat → AuthResponse) (dO : Nat → DataResponse)
    (hu : s.username = some u) (hune : u ≠ [])
    (hp : s.password = some pw) (hpne : pw ≠ [])
    (hak : s.apiKey = none)
    (hat : s.authToken = some tok) (htne : tok ≠ [])
    (hui : s.userId = some uid) (huine : uid ≠ [])
    (h401 : (dO 0).status = 401)
    (hlog : okStatus (aO 0).status = true)
    (hnt : (aO 0).accessToken ≠ []) :
    (∃ url1 url2,
      (getSeasons s sid aO dO).trace = [.data url1, .login u pw, .data url2]
      ∧ ("api_key=".data ++ (aO 0).accessToken) <:+ url2)
    ∧ (okStatus (dO 1).status = false →
        (getSeasons s sid aO dO).result = .error ⟨seasonsFailMsg⟩)
    ∧ (okStatus (dO 1).status = true →
        (getSeasons s sid aO dO).result = .ok ((dO 1).json.Items.getD [])) := by
  have htu : truthy s.username = true := by rw [hu]; exact truthy_some_ne hune
  have htp : truthy s.password = true := by rw [hp]; exact truthy_some_ne hpne
  have hta : truthy s.authToken = true := by rw [hat]; exact truthy_some_ne htne
  have htui : truthy s.userId = true := by rw [hui]; exact truthy_some_ne huine
  have hak' : truthy s.apiKey = false := by rw [hak]; rfl
  have htok : truthy (some tok) = true := truthy_some_ne htne
  have hsu : truthy (some u) = true := truthy_some_ne hune
  have hsp : truthy (some pw) = true := truthy_some_ne hpne
  have hsui : truthy (some uid) = true := truthy_some_ne huine
  have hnt' : truthy (some ((aO 0).accessToken)) = true := truthy_some_ne hnt
  have hnone : truthy none = false := rfl
  have hens : ensureAuthenticated s (aO 0) = ⟨s, [], .ok ()⟩ := by
    simp [ensureAuthenticated, hak', hta]
  have htr : (getSeasons s sid aO dO).trace =
      [.data (s.serverUrl ++ "/Shows/".data ++ sid ++ "/Seasons?userId=".data ++ uid
          ++ ("&api_key=".data ++ tok)),
       .login u pw,
       .data (s.serverUrl ++ "/Shows/".data ++ sid ++ "/Seasons?userId=".data
          ++ (aO 0).userId ++ ("&api_key=".data ++ (aO 0).accessToken))] := by
    simp [getSeasons, hens, htui, tsOr, hak, hat, htok, interp, hui, hu, hp, h401,
      htu, htp, hak', hsu, hsp, hsui, hnt', hnone, numLogins, isLoginEv,
      authenticate, hlog]
  have hres : (getSeasons s sid aO dO).result =
      (if okStatus (dO 1).status then .ok ((dO 1).json.Items.getD [])
       else .error ⟨seasonsFailMsg⟩) := by
    simp [getSeasons, hens, htui, tsOr, hak, hat, htok, interp, hui, hu, hp, h401,
      htu, htp, hak', hsu, hsp, hsui, hnt', hnone, numLogins, isLoginEv,
      authenticate, hlog]
  refine ⟨⟨_, _, htr, ?_⟩, fun hok => by rw [hres]; simp [hok],
    fun hok => by rw [hres]; simp [hok]⟩
  exact suffix_append_left ⟨['&'], rfl⟩ _

theorem claim1_episodes_aux (s : Session) (sid : Str) (so : Option Str)
    (u pw tok uid : Str) (aO : Nat → AuthResponse) (dO : Nat → DataResponse)
    (hu : s.username = some u) (hune : u ≠ [])
    (hp : s.password = some pw) (hpne : pw ≠ [])
    (hak : s.apiKey = none)
    (hat : s.authToken = some tok) (htne : tok ≠ [])
    (hui : s.userId = some uid) (huine : uid ≠ [])
    (h401 : (dO 0).status = 401)
    (hlog : okStatus (aO 0).status = true)
    (hnt : (aO 0).accessToken ≠ []) :
    (∃ url1 url2,
      (getEpisodes s sid so aO dO).trace = [.data url1, .login u pw, .data url2]
      ∧ ("api_key=".data ++ (aO 0).accessToken) <:+ url2)
    ∧ (okStatus (dO 1).status = false →
        (getEpisodes s sid so aO dO).result = .error ⟨episodesFailMsg⟩)
    ∧ (okStatus (dO 1).status = true →
        (getEpisodes s sid so aO dO).result = .ok ((dO 1).json.Items.getD [])) := by
  have htu : truthy s.username = true := by rw [hu]; exact truthy_some_ne hune
  have htp : truthy s.password = true := by rw [hp]; exact truthy_some_ne hpne
  have hta : truthy s.authToken = true := by rw [hat]; exact truthy_some_ne htne
  have htui : truthy s.userId = true := by rw [hui]; exact truthy_some_ne huine
  have hak' : truthy s.apiKey = false := by rw [hak]; rfl
  have htok : truthy (some tok) = true := truthy_some_ne htne
  have hsu : truthy (some u) = true := truthy_some_ne hune
  have hsp : truthy (some pw) = true := truthy_some_ne hpne
  have hsui : truthy (some uid) = true := truthy_some_ne huine
  have hnt' : truthy (some ((aO 0).accessToken)) = true := truthy_some_ne hnt
  have hnone : truthy none = false := rfl
  have hens : ensureAuthenticated s (aO 0) = ⟨s, [], .ok ()⟩ := by
    simp [ensureAuthenticated, hak', hta]
  have htr : (getEpisodes s sid so aO dO).trace =
      [.data (s.serverUrl ++ "/Shows/".data ++ sid ++ "/Episodes?".data
          ++ paramsToString (setParam (setIf (truthy so)
              [("userId".data, uid), ("Fields".data, "MediaSources".data)]
              ("seasonId".data) (so.getD [])) ("api_key".data) tok)),
       .login u pw,
       .data (s.serverUrl ++ "/Shows/".data ++ sid ++ "/Episodes?".data
          ++ paramsToString (setParam (setIf (truthy so)
              [("userId".data, (aO 0).userId), ("Fields".data, "MediaSources".data)]
              ("seasonId".data) (so.getD [])) ("api_key".data) ((aO 0).accessToken)))] := by
    simp [getEpisodes, hens, htui, tsOr, hak, hat, htok, interp, hui, hu, hp, h401,
      htu, htp, hak', hsu, hsp, hsui, hnt', hnone, numLogins, isLoginEv,
      authenticate, hlog, setIf]
  have hres : (getEpisodes s sid so aO dO).result =
      (if okStatus (dO 1).status then .ok ((dO 1).json.Items.getD [])
       else .error ⟨episodesFailMsg⟩) := by
    simp [getEpisodes, hens, htui, tsOr, hak, hat, htok, interp, hui, hu, hp, h401,
      htu, htp, hak', hsu, hsp, hsui, hnt', hnone, numLogins, isLoginEv,
      authenticate, hlog, setIf]
  refine ⟨⟨_, _, htr, ?_⟩, fun hok => by rw [hres]; simp [hok],
    fun hok => by rw [hres]; simp [hok]⟩
  rw [setParam_not_mem (apiKey_not_mem_episodesBase ((aO 0).userId) so)]
  exact suffix_append_left
    (paramsToString_last_suffix _ ("api_key".data) ((aO 0).accessToken)) _

/-- Claim C1 (amended): for every user-scoped data operation run on a
session that already holds a cached auth token (so `ensureAuthenticated`
performs no login), with username and password configured and no apiKey,
when the first data response is 401 and the re-login succeeds: the trace is
exactly one data call, one login call, and one more data call; the second
data call carries the token returned by that login in its credential
parameter; and a non-success second response makes the operation fail with
its operation-specific error instead of retrying again. -/
theorem claim1_single_shot_retry (s : Session) (p : GetItemsParams)
    (iid sid : Str) (so : Option Str)
    (u pw tok uid : Str) (aO : Nat → AuthResponse) (dO : Nat → DataResponse)
    (hu : s.username = some u) (hune : u ≠ [])
    (hp : s.password = some pw) (hpne : pw ≠ [])
    (hak : s.apiKey = none)
    (hat : s.authToken = some tok) (htne : tok ≠ [])
    (hui : s.userId = some uid) (huine : uid ≠ [])
    (h401 : (dO 0).status = 401)
    (hlog : okStatus (aO 0).status = true)
    (hnt : (aO 0).accessToken ≠ []) :
    ((∃ url1 url2,
        (getItems s p aO dO).trace = [.data url1, .login u pw, .data url2]
        ∧ ("X-Emby-Token=".data ++ (aO 0).accessToken) <:+ url2)
      ∧ (okStatus (dO 1).status = false →
          (getItems s p aO dO).result =
            .error ⟨itemsFailMsg (dO 1).status (dO 1).bodyText⟩)
      ∧ (okStatus (dO 1).status = true →
          (getItems s p aO dO).result = .ok (dO 1).json))
    ∧ ((∃ url1 url2,
        (getItem s iid aO dO).trace = [.data url1, .login u pw, .data url2]
        ∧ ("api_key=".data ++ (aO 0).accessToken) <:+ url2)
      ∧ (okStatus (dO 1).status = false →
          (getItem s iid aO dO).result = .error ⟨itemDetailFailMsg⟩)
      ∧ (okStatus (dO 1).status = true →
          (getItem s iid aO dO).result = .ok (dO 1).itemJson))
    ∧ ((∃ url1 url2,
        (getSeasons s sid aO dO).trace = [.data url1, .login u pw, .data url2]
        ∧ ("api_key=".data ++ (aO 0).accessToken) <:+ url2)
      ∧ (okStatus (dO 1).status = false →
          (getSeasons s sid aO dO).result = .error ⟨seasonsFailMsg⟩)
      ∧ (okStatus (dO 1).status = true →
          (getSeasons s sid aO dO).result = .ok ((dO 1).json.Items.getD [])))
    ∧ ((∃ url1 url2,
        (getEpisodes s sid so aO dO).trace = [.data url1, .login u pw, .data url2]
        ∧ ("api_key=".data ++ (aO 0).accessToken) <:+ url2)
      ∧ (okStatus (dO 1).status = false →
          (getEpisodes s sid so aO dO).result = .error ⟨episodesFailMsg⟩)
      ∧ (okStatus (dO 1).status = true →
          (getEpisodes s sid so aO dO).result = .ok ((dO 1).json.Items.getD []))) :=
  ⟨claim1_items_aux s p u pw tok uid aO dO hu hune hp hpne hak hat htne hui huine
      h401 hlog,
   claim1_item_aux s iid u pw tok uid aO dO hu hune hp hpne hak hat htne hui huine
      h401 hlog hnt,
   claim1_seasons_aux s sid u pw tok uid aO dO hu hune hp hpne hak hat htne hui huine
      h401 hlog hnt,
   claim1_episodes_aux s sid so u pw tok uid aO dO hu hune hp hpne hak hat htne hui
      huine h401 hlog hnt⟩

/-- Witness for C1 at concrete inputs: on the cached-token session a
401-then-500 network makes `getItems` perform data, login, data and fail
with the embedded 500/boom message, with the retry URL carrying the fresh
token; `getEpisodes` shows the same trace shape. -/
theorem claim1_witness :
    (∃ url1 url2,
      (getItems sTok pEmpty authOK data401then500).trace =
        [.data url1, .login ("alice".data) ("pw".data), .data url2]
      ∧ ("X-Emby-Token=".data ++ (authOK 0).accessToken) <:+ url2)
    ∧ ((getItems sTok pEmpty authOK data401then500).result =
        .error ⟨itemsFailMsg (data401then500 1).status (data401then500 1).bodyText⟩)
    ∧ (∃ url1 url2,
      (getEpisodes sTok ("ser1".data) none authOK data401then500).trace =
        [.data url1, .login ("alice".data) ("pw".data), .data url2]
      ∧ ("api_key=".data ++ (authOK 0).accessToken) <:+ url2) := by
  have A := claim1_single_shot_retry sTok pEmpty ("i1".data) ("ser1".data) none
    ("alice".data) ("pw".data) ("tk".data) ("uid".data) authOK data401then500
    rfl (by decide) rfl (by decide) rfl rfl (by decide) rfl (by decide) rfl
    (by decide) (by decide)
  exact ⟨A.1.1, A.1.2.1 (by decide), A.2.2.2.1⟩

/-- Counterexample for C1 as frozen: on a session with username/password,
no apiKey and NO cached token, the first data response is 401 and all the
claim's premises hold, yet the operation performs TWO login calls (one in
`ensureAuthenticated`, one in the retry), not exactly one. -/
theorem claim1_counterexample :
    numLogins (getItems sNoTok pEmpty authOK data401then200).trace = 2
    ∧ numData (getItems sNoTok pEmpty authOK data401then200).trace = 2
    ∧ (data401then200 0).status = 401
    ∧ sNoTok.apiKey = none
    ∧ sNoTok.username = some ("alice".data)
    ∧ sNoTok.password = some ("pw".data) :=
  ⟨rfl, rfl, rfl, rfl, rfl, rfl⟩

end Emby
